import Mathlib

/-
Verification of the n8n voice-trading test harness
(src/test-voic2trade.py) against its specification.

The script is a thin HTTP client: each test method of the class
N8nVoiceTradingTester builds a fixed URL and JSON payload, issues one
request through a shared session, prints the status code and the
JSON-decoded body, and returns that body.  We embed the script
shallowly: JSON values are an inductive type, the session/tester state
is a structure, and each test method is a pure function from the
tester state and the (externally produced) HTTP response to a record
describing the single request it issued, what it printed, what it
returned, and the final tester state.  The HTTP transport and the
n8n workflow behind it are external; a `Response` is therefore an
arbitrary input, with `jsonBody = none` standing for a response body
that is not valid JSON (in which case `response.json()` raises).
-/

namespace VoiceTrade

/-- JSON values, as produced by `response.json()` and as built for the
request payloads.  Numbers in the script are integers (the only literal
number is `123`), so `num` carries an `Int`. -/
inductive Json where
  | null
  | bool (b : Bool)
  | num (n : Int)
  | str (s : String)
  | arr (elems : List Json)
  | obj (entries : List (String × Json))

/-- Python truthiness of a JSON value, as used by `not result['success']`
and `result.get('success')`: `None`, `False`, `0`, `""`, `[]` and
empty objects are falsy. -/
def Json.truthy : Json → Bool
  | .null => false
  | .bool b => b
  | .num n => decide (n ≠ 0)
  | .str s => decide (s ≠ "")
  | .arr elems => !elems.isEmpty
  | .obj entries => !entries.isEmpty

/-- Dictionary lookup on a JSON object's entry list (Python `d[k]` /
`d.get(k)`); the script never builds objects with duplicate keys. -/
def jlookup (entries : List (String × Json)) (k : String) : Option Json :=
  match entries with
  | [] => none
  | (k2, v) :: rest => if k2 = k then some v else jlookup rest k

/-- Python `k in d` on a JSON object. -/
def hasKey (entries : List (String × Json)) (k : String) : Bool :=
  (jlookup entries k).isSome

/-- Lookup in a string-valued dictionary (HTTP headers, query params). -/
def hlookup (entries : List (String × String)) (k : String) : Option String :=
  match entries with
  | [] => none
  | (k2, v) :: rest => if k2 = k then some v else hlookup rest k

/-- One `d[k] = v` assignment on a string dictionary: replace the value
if the key is present, otherwise append the binding. -/
def setKey (d : List (String × String)) (k v : String) : List (String × String) :=
  if d.any (fun p => p.1 = k) then
    d.map (fun p => if p.1 = k then (k, v) else p)
  else
    d ++ [(k, v)]

/-- Python `dict.update`: apply each binding of `u` to `d` in order. -/
def dictUpdate (d u : List (String × String)) : List (String × String) :=
  u.foldl (fun acc p => setKey acc p.1 p.2) d

/-- Python `str.rstrip(c)` on the character list of a string: remove
every trailing occurrence of `c`. -/
def rstripChar (c : Char) (l : List Char) : List Char :=
  (l.reverse.dropWhile (fun x => x = c)).reverse

/-- Python `s.rstrip('/')`. -/
def pyRstripSlash (s : String) : String :=
  String.mk (rstripChar '/' s.data)

/-- HTTP method of a request issued by the session. -/
inductive HttpMethod where
  | get
  | post
deriving DecidableEq

/-- One HTTP request as issued by `self.session.post(url, json=payload)`
or `self.session.get(url, params=params)`: the session's headers travel
with every request. -/
structure Request where
  method : HttpMethod
  url : String
  params : List (String × String)
  body : Option Json
  headers : List (String × String)

/-- The externally produced HTTP response.  `jsonBody = some j` means
`response.json()` evaluates to `j`; `jsonBody = none` means the body is
not valid JSON, so `response.json()` raises. -/
structure Response where
  status_code : Nat
  jsonBody : Option Json

/-- Default headers of a fresh `requests.Session()`.  The library's own
defaults (User-Agent and friends) are opaque to this repository and
contain no Content-Type entry; they are modelled as empty. -/
def sessionDefaultHeaders : List (String × String) := []

/-- The tester's state: the normalized base URL and the shared
session's headers (lines 18-29 of the script). -/
structure N8nVoiceTradingTester where
  base_url : String
  headers : List (String × String)

/-- The constructor `N8nVoiceTradingTester.__init__`: strip trailing
slashes from the base URL and set `Content-Type: application/json` on
the session via `headers.update`. -/
def N8nVoiceTradingTester.init (base_url : String) : N8nVoiceTradingTester :=
  { base_url := pyRstripSlash base_url
    headers := dictUpdate sessionDefaultHeaders [("Content-Type", "application/json")] }

/-- Observable outcome of one test-method call: the requests issued (in
order), the status code and body printed, the value returned
(`Except.error ()` when `response.json()` raised), and the tester state
after the call. -/
structure MethodRun where
  requests : List Request
  printedStatus : Option Nat
  printedBody : Option Json
  result : Except Unit Json
  finalState : N8nVoiceTradingTester

/-- Shared tail of every test method (e.g. lines 49-55): issue the one
request, print the status code, then print and return `response.json()`.
The status code is printed before the body is decoded, so on a non-JSON
body the status is printed but the method raises before printing or
returning a body. -/
def send (t : N8nVoiceTradingTester) (req : Request) (resp : Response) : MethodRun :=
  match resp.jsonBody with
  | some j =>
      { requests := [req]
        printedStatus := some resp.status_code
        printedBody := some j
        result := Except.ok j
        finalState := t }
  | none =>
      { requests := [req]
        printedStatus := some resp.status_code
        printedBody := none
        result := Except.error ()
        finalState := t }

/-- A POST of a JSON payload through the session. -/
def postJson (t : N8nVoiceTradingTester) (url : String)
    (payload : List (String × Json)) (resp : Response) : MethodRun :=
  send t
    { method := HttpMethod.post
      url := url
      params := []
      body := some (Json.obj payload)
      headers := t.headers } resp

/-- A GET with query parameters through the session. -/
def getWithParams (t : N8nVoiceTradingTester) (url : String)
    (params : List (String × String)) (resp : Response) : MethodRun :=
  send t
    { method := HttpMethod.get
      url := url
      params := params
      body := none
      headers := t.headers } resp

/-- Lines 31-55: `test_voice_command(audio_url, user_id)`. -/
def N8nVoiceTradingTester.test_voice_command (t : N8nVoiceTradingTester)
    (audio_url user_id : String) (resp : Response) : MethodRun :=
  postJson t (t.base_url ++ "/webhook/voice-command")
    [("audio_url", Json.str audio_url), ("user_id", Json.str user_id)] resp

/-- Lines 57-77: `test_balance(exchange)`. -/
def N8nVoiceTradingTester.test_balance (t : N8nVoiceTradingTester)
    (exchange : String) (resp : Response) : MethodRun :=
  getWithParams t (t.base_url ++ "/webhook/balance") [("exchange", exchange)] resp

/-- Lines 79-99: `test_orders(exchange)`. -/
def N8nVoiceTradingTester.test_orders (t : N8nVoiceTradingTester)
    (exchange : String) (resp : Response) : MethodRun :=
  getWithParams t (t.base_url ++ "/webhook/orders") [("exchange", exchange)] resp

/-- Lines 101-121: `test_no_audio_input()`; the payload deliberately
omits the `audio_url` field. -/
def N8nVoiceTradingTester.test_no_audio_input (t : N8nVoiceTradingTester)
    (resp : Response) : MethodRun :=
  postJson t (t.base_url ++ "/webhook/voice-command")
    [("user_id", Json.str "test_user")] resp

/-- Lines 123-143: `test_empty_audio_url()`. -/
def N8nVoiceTradingTester.test_empty_audio_url (t : N8nVoiceTradingTester)
    (resp : Response) : MethodRun :=
  postJson t (t.base_url ++ "/webhook/voice-command")
    [("audio_url", Json.str ""), ("user_id", Json.str "test_user")] resp

/-- Lines 145-165: `test_malformed_request()`; the payload carries only
fields the workflow does not know. -/
def N8nVoiceTradingTester.test_malformed_request (t : N8nVoiceTradingTester)
    (resp : Response) : MethodRun :=
  postJson t (t.base_url ++ "/webhook/voice-command")
    [("invalid_field", Json.str "invalid_value"), ("another_invalid", Json.num 123)] resp

/-- Lines 167-188: `test_passing_error_response()`. -/
def N8nVoiceTradingTester.test_passing_error_response (t : N8nVoiceTradingTester)
    (resp : Response) : MethodRun :=
  postJson t (t.base_url ++ "/webhook/voice-command")
    [("audio_url",
      Json.str "https://github.com/TigranGalstyan/molecula_test_files/raw/refs/heads/main/non_trade.m4a"),
     ("user_id", Json.str "test_user")] resp

/-- What `demo_error_scenarios` reports for one JSON-object result
(lines 230-237): `caught` prints `result.get('error', 'Unknown error')`
and, when a `message` key is present, that message too; `handled`
prints `result.get('message', 'Unknown error')`; `unexpected` prints
the whole result. -/
inductive ErrorOutcome where
  | caught (err : Json) (message : Option Json)
  | handled (message : Json)
  | unexpected

/-- Whether the outcome is the `Error Caught` branch. -/
def ErrorOutcome.isCaught : ErrorOutcome → Bool
  | .caught _ _ => true
  | _ => false

/-- Whether the outcome is the `Error Handled` branch. -/
def ErrorOutcome.isHandled : ErrorOutcome → Bool
  | .handled _ => true
  | _ => false

/-- The classification `demo_error_scenarios` applies to a JSON object
returned by a test method (lines 230-237):
`if 'error' in result: ... elif 'success' in result and not
result['success']: ... else: ...`. -/
def classifyErrorResult (result : List (String × Json)) : ErrorOutcome :=
  if hasKey result "error" then
    ErrorOutcome.caught
      (match jlookup result "error" with
       | some e => e
       | none => Json.str "Unknown error")
      (jlookup result "message")
  else if hasKey result "success"
      && !(match jlookup result "success" with
           | some v => v.truthy
           | none => false) then
    ErrorOutcome.handled
      (match jlookup result "message" with
       | some m => m
       | none => Json.str "Unknown error")
  else
    ErrorOutcome.unexpected

/-- What `demo_voice_commands` does with one voice-command result
(lines 284-290).  `successOrder` carries the printed trade summary and
the four fields read from `order_result`; `raised` marks the runs where
a field access raises (a missing key is a `KeyError`, and subscripting
a non-object `order_result` is a `TypeError`), which the surrounding
`except` clause reports as an exception. -/
inductive VoiceOutcome where
  | successNoOrder (summary : Json)
  | successOrder (summary side quantity symbol price : Json)
  | errorReport (err : Json)
  | raised

/-- The per-result body of the loop in `demo_voice_commands`
(lines 284-290): on a truthy `success`, print the trade summary and,
when `order_result` is present, its `side`, `quantity`, `symbol` and
`price` fields; otherwise print the error. -/
def demoVoiceStep (result : List (String × Json)) : VoiceOutcome :=
  let succ := match jlookup result "success" with
    | some v => v.truthy
    | none => false
  if succ then
    let summary := match jlookup result "trade_summary" with
      | some v => v
      | none => Json.str "Command processed"
    match jlookup result "order_result" with
    | some (Json.obj order) =>
        (match jlookup order "side", jlookup order "quantity",
               jlookup order "symbol", jlookup order "price" with
         | some s, some q, some sy, some p =>
             VoiceOutcome.successOrder summary s q sy p
         | _, _, _, _ => VoiceOutcome.raised)
    | some _ => VoiceOutcome.raised
    | none => VoiceOutcome.successNoOrder summary
  else
    VoiceOutcome.errorReport
      (match jlookup result "error" with
       | some e => e
       | none => Json.str "Unknown error")

/-- The keys `demo_voice_commands` reads from an `order_result` object
(line 288). -/
def orderResultKeys : List String := ["side", "quantity", "symbol", "price"]

/-- Bool test for a JSON-object request body, for stating that the
voice-command methods POST a JSON object. -/
def Request.hasJsonObjectBody (r : Request) : Bool :=
  match r.body with
  | some (Json.obj _) => true
  | _ => false

/-- Bool test whether a request's JSON body is an object with key `k`. -/
def Request.bodyHasKey (r : Request) (k : String) : Bool :=
  match r.body with
  | some (Json.obj entries) => hasKey entries k
  | _ => false

/-- Bool test whether a string ends in the character `/`. -/
def endsWithSlash (s : String) : Bool :=
  match s.data.getLast? with
  | some c => decide (c = '/')
  | none => false

section SendLemmas

lemma send_requests (t : N8nVoiceTradingTester) (req : Request) (resp : Response) :
    (send t req resp).requests = [req] := by
  rcases resp with ⟨sc, jb⟩
  cases jb <;> rfl

lemma send_finalState (t : N8nVoiceTradingTester) (req : Request) (resp : Response) :
    (send t req resp).finalState = t := by
  rcases resp with ⟨sc, jb⟩
  cases jb <;> rfl

lemma send_printedStatus (t : N8nVoiceTradingTester) (req : Request) (resp : Response) :
    (send t req resp).printedStatus = some resp.status_code := by
  rcases resp with ⟨sc, jb⟩
  cases jb <;> rfl

lemma send_printedBody (t : N8nVoiceTradingTester) (req : Request) (resp : Response) :
    (send t req resp).printedBody = resp.jsonBody := by
  rcases resp with ⟨sc, jb⟩
  cases jb <;> rfl

lemma send_result (t : N8nVoiceTradingTester) (req : Request) (resp : Response) :
    (send t req resp).result =
      (match resp.jsonBody with
       | some j => Except.ok j
       | none => Except.error ()) := by
  rcases resp with ⟨sc, jb⟩
  cases jb <;> rfl

lemma send_result_toOption (t : N8nVoiceTradingTester) (req : Request) (resp : Response) :
    (send t req resp).result.toOption = resp.jsonBody := by
  rcases resp with ⟨sc, jb⟩
  cases jb <;> rfl

end SendLemmas

section RequestLemmas

lemma test_voice_command_requests (t : N8nVoiceTradingTester)
    (audio_url user_id : String) (resp : Response) :
    (t.test_voice_command audio_url user_id resp).requests =
      [⟨HttpMethod.post, t.base_url ++ "/webhook/voice-command", [],
        some (Json.obj [("audio_url", Json.str audio_url), ("user_id", Json.str user_id)]),
        t.headers⟩] := by
  simp [N8nVoiceTradingTester.test_voice_command, postJson, send_requests]

lemma test_balance_requests (t : N8nVoiceTradingTester)
    (exchange : String) (resp : Response) :
    (t.test_balance exchange resp).requests =
      [⟨HttpMethod.get, t.base_url ++ "/webhook/balance", [("exchange", exchange)],
        none, t.headers⟩] := by
  simp [N8nVoiceTradingTester.test_balance, getWithParams, send_requests]

lemma test_orders_requests (t : N8nVoiceTradingTester)
    (exchange : String) (resp : Response) :
    (t.test_orders exchange resp).requests =
      [⟨HttpMethod.get, t.base_url ++ "/webhook/orders", [("exchange", exchange)],
        none, t.headers⟩] := by
  simp [N8nVoiceTradingTester.test_orders, getWithParams, send_requests]

lemma test_no_audio_input_requests (t : N8nVoiceTradingTester) (resp : Response) :
    (t.test_no_audio_input resp).requests =
      [⟨HttpMethod.post, t.base_url ++ "/webhook/voice-command", [],
        some (Json.obj [("user_id", Json.str "test_user")]), t.headers⟩] := by
  simp [N8nVoiceTradingTester.test_no_audio_input, postJson, send_requests]

lemma test_empty_audio_url_requests (t : N8nVoiceTradingTester) (resp : Response) :
    (t.test_empty_audio_url resp).requests =
      [⟨HttpMethod.post, t.base_url ++ "/webhook/voice-command", [],
        some (Json.obj [("audio_url", Json.str ""), ("user_id", Json.str "test_user")]),
        t.headers⟩] := by
  simp [N8nVoiceTradingTester.test_empty_audio_url, postJson, send_requests]

lemma test_malformed_request_requests (t : N8nVoiceTradingTester) (resp : Response) :
    (t.test_malformed_request resp).requests =
      [⟨HttpMethod.post, t.base_url ++ "/webhook/voice-command", [],
        some (Json.obj [("invalid_field", Json.str "invalid_value"),
                        ("another_invalid", Json.num 123)]), t.headers⟩] := by
  simp [N8nVoiceTradingTester.test_malformed_request, postJson, send_requests]

lemma test_passing_error_response_requests (t : N8nVoiceTradingTester) (resp : Response) :
    (t.test_passing_error_response resp).requests =
      [⟨HttpMethod.post, t.base_url ++ "/webhook/voice-command", [],
        some (Json.obj
          [("audio_url",
            Json.str "https://github.com/TigranGalstyan/molecula_test_files/raw/refs/heads/main/non_trade.m4a"),
           ("user_id", Json.str "test_user")]), t.headers⟩] := by
  simp [N8nVoiceTradingTester.test_passing_error_response, postJson, send_requests]

end RequestLemmas

/-- C1 (counterexample): not every payload POSTed to
`/webhook/voice-command` contains the key `audio_url` — the single
request issued by `test_no_audio_input` goes to that path by POST, yet
its JSON body has no `audio_url` key. -/
theorem voice_payload_keys_cex :
    (((N8nVoiceTradingTester.init "https://tigrann.app.n8n.cloud").test_no_audio_input
        ⟨200, some (Json.obj [])⟩).requests.map Request.url =
      ["https://tigrann.app.n8n.cloud/webhook/voice-command"]) ∧
    (((N8nVoiceTradingTester.init "https://tigrann.app.n8n.cloud").test_no_audio_input
        ⟨200, some (Json.obj [])⟩).requests.map Request.method = [HttpMethod.post]) ∧
    (((N8nVoiceTradingTester.init "https://tigrann.app.n8n.cloud").test_no_audio_input
        ⟨200, some (Json.obj [])⟩).requests.map
          (fun r => Request.bodyHasKey r "audio_url") = [false]) := by
  refine ⟨?_, ?_, ?_⟩ <;> rfl

/-- C1 (amended): `test_voice_command(audio_url, user_id)` POSTs exactly
the body with entries `audio_url` and `user_id` to
`base_url ++ "/webhook/voice-command"`, and so do `test_empty_audio_url`
and `test_passing_error_response` with their fixed values; but of the
other methods POSTing to that path, `test_no_audio_input` omits the
`audio_url` key and `test_malformed_request` carries neither key. -/
theorem voice_payload_keys (t : N8nVoiceTradingTester)
    (audio_url user_id : String) (resp : Response) :
    ((t.test_voice_command audio_url user_id resp).requests =
      [⟨HttpMethod.post, t.base_url ++ "/webhook/voice-command", [],
        some (Json.obj [("audio_url", Json.str audio_url), ("user_id", Json.str user_id)]),
        t.headers⟩]) ∧
    ((t.test_empty_audio_url resp).requests.map
        (fun r => (Request.bodyHasKey r "audio_url", Request.bodyHasKey r "user_id")) =
      [(true, true)]) ∧
    ((t.test_passing_error_response resp).requests.map
        (fun r => (Request.bodyHasKey r "audio_url", Request.bodyHasKey r "user_id")) =
      [(true, true)]) ∧
    ((t.test_no_audio_input resp).requests.map
        (fun r => (Request.bodyHasKey r "audio_url", Request.bodyHasKey r "user_id")) =
      [(false, true)]) ∧
    ((t.test_malformed_request resp).requests.map
        (fun r => (Request.bodyHasKey r "audio_url", Request.bodyHasKey r "user_id")) =
      [(false, false)]) := by
  refine ⟨test_voice_command_requests t audio_url user_id resp, ?_, ?_, ?_, ?_⟩ <;>
    simp [test_empty_audio_url_requests, test_passing_error_response_requests,
          test_no_audio_input_requests, test_malformed_request_requests,
          Request.bodyHasKey, hasKey, jlookup]

/-- C3: every request goes to a fixed path under the base URL: the five
voice-command methods POST a JSON-object body (with no query
parameters) to `base_url ++ "/webhook/voice-command"`, while
`test_balance` and `test_orders` GET `base_url ++ "/webhook/balance"`
and `base_url ++ "/webhook/orders"` with the exchange name as the
single query parameter `exchange`. -/
theorem requests_go_to_fixed_paths (t : N8nVoiceTradingTester)
    (audio_url user_id exchange : String) (resp : Response) :
    ((t.test_balance exchange resp).requests =
      [⟨HttpMethod.get, t.base_url ++ "/webhook/balance", [("exchange", exchange)],
        none, t.headers⟩]) ∧
    ((t.test_orders exchange resp).requests =
      [⟨HttpMethod.get, t.base_url ++ "/webhook/orders", [("exchange", exchange)],
        none, t.headers⟩]) ∧
    ((t.test_voice_command audio_url user_id resp).requests.map
        (fun r => (r.method, r.url, r.params, r.hasJsonObjectBody)) =
      [(HttpMethod.post, t.base_url ++ "/webhook/voice-command", [], true)]) ∧
    ((t.test_no_audio_input resp).requests.map
        (fun r => (r.method, r.url, r.params, r.hasJsonObjectBody)) =
      [(HttpMethod.post, t.base_url ++ "/webhook/voice-command", [], true)]) ∧
    ((t.test_empty_audio_url resp).requests.map
        (fun r => (r.method, r.url, r.params, r.hasJsonObjectBody)) =
      [(HttpMethod.post, t.base_url ++ "/webhook/voice-command", [], true)]) ∧
    ((t.test_malformed_request resp).requests.map
        (fun r => (r.method, r.url, r.params, r.hasJsonObjectBody)) =
      [(HttpMethod.post, t.base_url ++ "/webhook/voice-command", [], true)]) ∧
    ((t.test_passing_error_response resp).requests.map
        (fun r => (r.method, r.url, r.params, r.hasJsonObjectBody)) =
      [(HttpMethod.post, t.base_url ++ "/webhook/voice-command", [], true)]) := by
  refine ⟨test_balance_requests t exchange resp, test_orders_requests t exchange resp,
    ?_, ?_, ?_, ?_, ?_⟩ <;>
    simp [test_voice_command_requests, test_no_audio_input_requests,
          test_empty_audio_url_requests, test_malformed_request_requests,
          test_passing_error_response_requests, Request.hasJsonObjectBody]

/-- C6: no test method ever retries — each call issues exactly one HTTP
request, whatever the response's status code or body. -/
theorem exactly_one_request_per_call (t : N8nVoiceTradingTester)
    (audio_url user_id exchange : String) (resp : Response) :
    (t.test_voice_command audio_url user_id resp).requests.length = 1 ∧
    (t.test_balance exchange resp).requests.length = 1 ∧
    (t.test_orders exchange resp).requests.length = 1 ∧
    (t.test_no_audio_input resp).requests.length = 1 ∧
    (t.test_empty_audio_url resp).requests.length = 1 ∧
    (t.test_malformed_request resp).requests.length = 1 ∧
    (t.test_passing_error_response resp).requests.length = 1 := by
  refine ⟨?_, ?_, ?_, ?_, ?_, ?_, ?_⟩ <;>
    simp [test_voice_command_requests, test_balance_requests, test_orders_requests,
          test_no_audio_input_requests, test_empty_audio_url_requests,
          test_malformed_request_requests, test_passing_error_response_requests]

/-- C7: the tester holds no evolving state — every test method leaves
the tester (its `base_url` and the session's headers) exactly as it
found it, so a later call behaves the same whatever ran before it, as
the final conjunct illustrates for `test_balance` after
`test_voice_command`. -/
theorem tester_state_unchanged (t : N8nVoiceTradingTester)
    (audio_url user_id exchange : String) (resp resp2 : Response) :
    (t.test_voice_command audio_url user_id resp).finalState = t ∧
    (t.test_balance exchange resp).finalState = t ∧
    (t.test_orders exchange resp).finalState = t ∧
    (t.test_no_audio_input resp).finalState = t ∧
    (t.test_empty_audio_url resp).finalState = t ∧
    (t.test_malformed_request resp).finalState = t ∧
    (t.test_passing_error_response resp).finalState = t ∧
    ((t.test_voice_command audio_url user_id resp).finalState.test_balance exchange resp2 =
      t.test_balance exchange resp2) := by
  refine ⟨?_, ?_, ?_, ?_, ?_, ?_, ?_, ?_⟩ <;>
    simp [N8nVoiceTradingTester.test_voice_command, N8nVoiceTradingTester.test_balance,
          N8nVoiceTradingTester.test_orders, N8nVoiceTradingTester.test_no_audio_input,
          N8nVoiceTradingTester.test_empty_audio_url,
          N8nVoiceTradingTester.test_malformed_request,
          N8nVoiceTradingTester.test_passing_error_response,
          postJson, getWithParams, send_finalState]

/-- C2: `demo_error_scenarios` reports a JSON-object result as caught
exactly when the key `error` is present; failing that, as handled
exactly when `success` is present with a falsy value; and as unexpected
in every remaining case. -/
theorem demo_error_classification (result : List (String × Json)) :
    ((classifyErrorResult result).isCaught = true ↔ hasKey result "error" = true) ∧
    (hasKey result "error" = false →
      ((classifyErrorResult result).isHandled = true ↔
        ∃ v, jlookup result "success" = some v ∧ v.truthy = false)) ∧
    ((classifyErrorResult result).isCaught = false →
      (classifyErrorResult result).isHandled = false →
      classifyErrorResult result = ErrorOutcome.unexpected) := by
  refine ⟨?_, ?_, ?_⟩
  · by_cases h : hasKey result "error" = true
    · simp [classifyErrorResult, h, ErrorOutcome.isCaught]
    · simp only [Bool.not_eq_true] at h
      simp only [classifyErrorResult, h, Bool.false_eq_true, if_false]
      constructor
      · intro hc
        split at hc <;> simp_all [ErrorOutcome.isCaught]
      · intro hc
        exact absurd hc (by simp)
  · intro h
    rcases hs : jlookup result "success" with _ | v
    · have hks : hasKey result "success" = false := by simp [hasKey, hs]
      simp [classifyErrorResult, h, hks, hs, ErrorOutcome.isHandled]
    · have hks : hasKey result "success" = true := by simp [hasKey, hs]
      cases tv : v.truthy
      · simp only [classifyErrorResult, h, Bool.false_eq_true, if_false, hks, hs, tv,
          Bool.not_false, Bool.and_true, if_true, ErrorOutcome.isHandled]
        constructor
        · intro _
          exact ⟨v, rfl, tv⟩
        · intro _
          trivial
      · simp [classifyErrorResult, h, hks, hs, tv, ErrorOutcome.isHandled]
  · intro h1 h2
    rcases hc : classifyErrorResult result with ⟨e, m⟩ | ⟨m⟩ | _
    · rw [hc] at h1
      simp [ErrorOutcome.isCaught] at h1
    · rw [hc] at h2
      simp [ErrorOutcome.isHandled] at h2
    · rfl

/-- C2 (witness): a result with an `error` key is reported as caught,
and — absent an `error` key — a result with `success: false` is
reported as handled. -/
theorem demo_error_classification_witness :
    (classifyErrorResult [("error", Json.str "No audio input provided")]).isCaught = true ∧
    (classifyErrorResult [("success", Json.bool false)]).isHandled = true := by
  constructor
  · exact (demo_error_classification
      [("error", Json.str "No audio input provided")]).1.mpr (by decide)
  · exact ((demo_error_classification
      [("success", Json.bool false)]).2.1 (by decide)).mpr ⟨Json.bool false, rfl, rfl⟩

/-- C4: every test method prints the response's status code, prints the
JSON-decoded body, and returns exactly the value it printed. -/
theorem test_methods_print_and_return (t : N8nVoiceTradingTester)
    (audio_url user_id exchange : String) (resp : Response) :
    ((t.test_voice_command audio_url user_id resp).printedStatus = some resp.status_code ∧
     (t.test_voice_command audio_url user_id resp).printedBody = resp.jsonBody ∧
     (t.test_voice_command audio_url user_id resp).result.toOption =
       (t.test_voice_command audio_url user_id resp).printedBody) ∧
    ((t.test_balance exchange resp).printedStatus = some resp.status_code ∧
     (t.test_balance exchange resp).printedBody = resp.jsonBody ∧
     (t.test_balance exchange resp).result.toOption =
       (t.test_balance exchange resp).printedBody) ∧
    ((t.test_orders exchange resp).printedStatus = some resp.status_code ∧
     (t.test_orders exchange resp).printedBody = resp.jsonBody ∧
     (t.test_orders exchange resp).result.toOption =
       (t.test_orders exchange resp).printedBody) ∧
    ((t.test_no_audio_input resp).printedStatus = some resp.status_code ∧
     (t.test_no_audio_input resp).printedBody = resp.jsonBody ∧
     (t.test_no_audio_input resp).result.toOption =
       (t.test_no_audio_input resp).printedBody) ∧
    ((t.test_empty_audio_url resp).printedStatus = some resp.status_code ∧
     (t.test_empty_audio_url resp).printedBody = resp.jsonBody ∧
     (t.test_empty_audio_url resp).result.toOption =
       (t.test_empty_audio_url resp).printedBody) ∧
    ((t.test_malformed_request resp).printedStatus = some resp.status_code ∧
     (t.test_malformed_request resp).printedBody = resp.jsonBody ∧
     (t.test_malformed_request resp).result.toOption =
       (t.test_malformed_request resp).printedBody) ∧
    ((t.test_passing_error_response resp).printedStatus = some resp.status_code ∧
     (t.test_passing_error_response resp).printedBody = resp.jsonBody ∧
     (t.test_passing_error_response resp).result.toOption =
       (t.test_passing_error_response resp).printedBody) := by
  refine ⟨⟨?_, ?_, ?_⟩, ⟨?_, ?_, ?_⟩, ⟨?_, ?_, ?_⟩, ⟨?_, ?_, ?_⟩,
    ⟨?_, ?_, ?_⟩, ⟨?_, ?_, ?_⟩, ⟨?_, ?_, ?_⟩⟩ <;>
    simp [N8nVoiceTradingTester.test_voice_command, N8nVoiceTradingTester.test_balance,
          N8nVoiceTradingTester.test_orders, N8nVoiceTradingTester.test_no_audio_input,
          N8nVoiceTradingTester.test_empty_audio_url,
          N8nVoiceTradingTester.test_malformed_request,
          N8nVoiceTradingTester.test_passing_error_response,
          postJson, getWithParams, send_printedStatus, send_printedBody,
          send_result_toOption]

/-- C5: when a voice-command result has a truthy `success` and an
`order_result` object carrying the keys `side`, `quantity`, `symbol`
and `price`, `demo_voice_commands` reads exactly those four fields, the
lookups all succeed, and the field-access error branch is unreachable. -/
theorem order_result_fields_safe (result order : List (String × Json)) (sv : Json)
    (hsv : jlookup result "success" = some sv) (htr : sv.truthy = true)
    (hor : jlookup result "order_result" = some (Json.obj order))
    (hkeys : ∀ k ∈ orderResultKeys, hasKey order k = true) :
    ∃ su s q sy p,
      jlookup order "side" = some s ∧
      jlookup order "quantity" = some q ∧
      jlookup order "symbol" = some sy ∧
      jlookup order "price" = some p ∧
      demoVoiceStep result = VoiceOutcome.successOrder su s q sy p ∧
      demoVoiceStep result ≠ VoiceOutcome.raised := by
  obtain ⟨s, hs⟩ := Option.isSome_iff_exists.mp (hkeys "side" (by simp [orderResultKeys]))
  obtain ⟨q, hq⟩ := Option.isSome_iff_exists.mp (hkeys "quantity" (by simp [orderResultKeys]))
  obtain ⟨sy, hsy⟩ := Option.isSome_iff_exists.mp (hkeys "symbol" (by simp [orderResultKeys]))
  obtain ⟨p, hp⟩ := Option.isSome_iff_exists.mp (hkeys "price" (by simp [orderResultKeys]))
  refine ⟨match jlookup result "trade_summary" with
          | some v => v
          | none => Json.str "Command processed", s, q, sy, p,
    hs, hq, hsy, hp, ?_, ?_⟩ <;>
    simp [demoVoiceStep, hsv, htr, hor, hs, hq, hsy, hp]

/-- C5 (witness): on a concrete successful result whose `order_result`
has all four keys, the demo reaches the order line with the four looked
up values. -/
theorem order_result_fields_safe_witness :
    ∃ su s q sy p,
      jlookup [("side", Json.str "buy"), ("quantity", Json.num 1),
               ("symbol", Json.str "BTCUSDT"), ("price", Json.num 45000)] "side" = some s ∧
      jlookup [("side", Json.str "buy"), ("quantity", Json.num 1),
               ("symbol", Json.str "BTCUSDT"), ("price", Json.num 45000)] "quantity" = some q ∧
      jlookup [("side", Json.str "buy"), ("quantity", Json.num 1),
               ("symbol", Json.str "BTCUSDT"), ("price", Json.num 45000)] "symbol" = some sy ∧
      jlookup [("side", Json.str "buy"), ("quantity", Json.num 1),
               ("symbol", Json.str "BTCUSDT"), ("price", Json.num 45000)] "price" = some p ∧
      demoVoiceStep
        [("success", Json.bool true),
         ("order_result", Json.obj
           [("side", Json.str "buy"), ("quantity", Json.num 1),
            ("symbol", Json.str "BTCUSDT"), ("price", Json.num 45000)])] =
        VoiceOutcome.successOrder su s q sy p ∧
      demoVoiceStep
        [("success", Json.bool true),
         ("order_result", Json.obj
           [("side", Json.str "buy"), ("quantity", Json.num 1),
            ("symbol", Json.str "BTCUSDT"), ("price", Json.num 45000)])] ≠
        VoiceOutcome.raised :=
  order_result_fields_safe
    [("success", Json.bool true),
     ("order_result", Json.obj
       [("side", Json.str "buy"), ("quantity", Json.num 1),
        ("symbol", Json.str "BTCUSDT"), ("price", Json.num 45000)])]
    [("side", Json.str "buy"), ("quantity", Json.num 1),
     ("symbol", Json.str "BTCUSDT"), ("price", Json.num 45000)]
    (Json.bool true) rfl rfl rfl (by decide)

section RstripLemmas

lemma rstripChar_append_self (c : Char) (l : List Char) :
    rstripChar c (l ++ [c]) = rstripChar c l := by
  simp [rstripChar, List.reverse_append, List.dropWhile]

lemma head_dropWhile_false (p : Char → Bool) (l : List Char) (x : Char)
    (h : (l.dropWhile p).head? = some x) : p x = false := by
  induction l with
  | nil => simp [List.dropWhile] at h
  | cons a t ih =>
    cases hpa : p a
    · have he : (a :: t).dropWhile p = a :: t := by
        simp [List.dropWhile, hpa]
      rw [he] at h
      simp only [List.head?] at h
      injection h with h2
      rw [← h2]
      exact hpa
    · have he : (a :: t).dropWhile p = t.dropWhile p := by
        simp [List.dropWhile, hpa]
      rw [he] at h
      exact ih h

lemma endsWithSlash_pyRstripSlash (s : String) :
    endsWithSlash (pyRstripSlash s) = false := by
  show (match (rstripChar '/' s.data).getLast? with
        | some c => decide (c = '/')
        | none => false) = false
  have hrev : (rstripChar '/' s.data).getLast? =
      (s.data.reverse.dropWhile (fun x => decide (x = '/'))).head? := by
    rw [rstripChar, List.getLast?_reverse]
  rw [hrev]
  cases hh : (s.data.reverse.dropWhile (fun x => decide (x = '/'))).head? with
  | none => rfl
  | some x =>
    have := head_dropWhile_false (fun x => decide (x = '/')) s.data.reverse x hh
    simpa using this

end RstripLemmas

/-- C8: the constructor normalizes the base URL by stripping every
trailing slash: a tester built from `base_url ++ "/"` is identical to
one built from `base_url` (hence every request URL agrees, as the last
conjunct illustrates), and the stored `base_url` never ends in `/`. -/
theorem base_url_normalized (u audio_url user_id : String) (resp : Response) :
    N8nVoiceTradingTester.init (u ++ "/") = N8nVoiceTradingTester.init u ∧
    endsWithSlash (N8nVoiceTradingTester.init u).base_url = false ∧
    ((N8nVoiceTradingTester.init (u ++ "/")).test_voice_command audio_url user_id resp).requests.map
        Request.url =
      ((N8nVoiceTradingTester.init u).test_voice_command audio_url user_id resp).requests.map
        Request.url := by
  have hinit : N8nVoiceTradingTester.init (u ++ "/") = N8nVoiceTradingTester.init u := by
    have hdata : (u ++ "/").data = u.data ++ ['/'] := by
      cases u with
      | mk l => rfl
    have hstrip : pyRstripSlash (u ++ "/") = pyRstripSlash u := by
      rw [pyRstripSlash, pyRstripSlash, hdata, rstripChar_append_self]
    simp [N8nVoiceTradingTester.init, hstrip]
  refine ⟨hinit, ?_, by rw [hinit]⟩
  exact endsWithSlash_pyRstripSlash u

/-- C9: a test method returns normally only when the response body
decodes as JSON: on a non-JSON body every method raises
(`Except.error ()`), and a normal return value is exactly the decoded
body. -/
theorem json_decode_failure_raises (t : N8nVoiceTradingTester)
    (audio_url user_id exchange : String) (resp : Response) (v : Json) :
    (resp.jsonBody = none →
      (t.test_voice_command audio_url user_id resp).result = Except.error () ∧
      (t.test_balance exchange resp).result = Except.error () ∧
      (t.test_orders exchange resp).result = Except.error () ∧
      (t.test_no_audio_input resp).result = Except.error () ∧
      (t.test_empty_audio_url resp).result = Except.error () ∧
      (t.test_malformed_request resp).result = Except.error () ∧
      (t.test_passing_error_response resp).result = Except.error ()) ∧
    (((t.test_voice_command audio_url user_id resp).result = Except.ok v →
        resp.jsonBody = some v) ∧
     ((t.test_balance exchange resp).result = Except.ok v → resp.jsonBody = some v) ∧
     ((t.test_orders exchange resp).result = Except.ok v → resp.jsonBody = some v) ∧
     ((t.test_no_audio_input resp).result = Except.ok v → resp.jsonBody = some v) ∧
     ((t.test_empty_audio_url resp).result = Except.ok v → resp.jsonBody = some v) ∧
     ((t.test_malformed_request resp).result = Except.ok v → resp.jsonBody = some v) ∧
     ((t.test_passing_error_response resp).result = Except.ok v → resp.jsonBody = some v)) := by
  have hok : ∀ req : Request, (send t req resp).result = Except.ok v →
      resp.jsonBody = some v := by
    intro req hr
    rw [send_result] at hr
    rcases hj : resp.jsonBody with _ | j
    · rw [hj] at hr
      exact absurd hr (by simp)
    · rw [hj] at hr
      simp only [Except.ok.injEq] at hr
      rw [hr]
  have herr : resp.jsonBody = none → ∀ req : Request,
      (send t req resp).result = Except.error () := by
    intro hj req
    rw [send_result, hj]
  constructor
  · intro hj
    refine ⟨?_, ?_, ?_, ?_, ?_, ?_, ?_⟩ <;>
      exact herr hj _
  · refine ⟨?_, ?_, ?_, ?_, ?_, ?_, ?_⟩ <;>
      exact fun hr => hok _ hr

/-- C9 (witness): on a response whose body is not valid JSON, a
concrete call raises instead of returning. -/
theorem json_decode_failure_raises_witness :
    ((N8nVoiceTradingTester.init "http://host").test_balance "binance"
        ⟨500, none⟩).result = Except.error () :=
  ((json_decode_failure_raises (N8nVoiceTradingTester.init "http://host")
      "a" "u" "binance" ⟨500, none⟩ Json.null).1 rfl).2.1

/-- C10: the constructor installs `Content-Type: application/json` on
the shared session, every request of every test method carries that
header, and no test method changes the session's headers. -/
theorem content_type_header_invariant (u audio_url user_id exchange : String)
    (resp : Response) :
    (hlookup (N8nVoiceTradingTester.init u).headers "Content-Type" =
      some "application/json") ∧
    (((N8nVoiceTradingTester.init u).test_voice_command audio_url user_id resp).requests.map
        (fun r => hlookup r.headers "Content-Type") = [some "application/json"]) ∧
    (((N8nVoiceTradingTester.init u).test_balance exchange resp).requests.map
        (fun r => hlookup r.headers "Content-Type") = [some "application/json"]) ∧
    (((N8nVoiceTradingTester.init u).test_orders exchange resp).requests.map
        (fun r => hlookup r.headers "Content-Type") = [some "application/json"]) ∧
    (((N8nVoiceTradingTester.init u).test_no_audio_input resp).requests.map
        (fun r => hlookup r.headers "Content-Type") = [some "application/json"]) ∧
    (((N8nVoiceTradingTester.init u).test_empty_audio_url resp).requests.map
        (fun r => hlookup r.headers "Content-Type") = [some "application/json"]) ∧
    (((N8nVoiceTradingTester.init u).test_malformed_request resp).requests.map
        (fun r => hlookup r.headers "Content-Type") = [some "application/json"]) ∧
    (((N8nVoiceTradingTester.init u).test_passing_error_response resp).requests.map
        (fun r => hlookup r.headers "Content-Type") = [some "application/json"]) ∧
    (((N8nVoiceTradingTester.init u).test_voice_command audio_url user_id resp).finalState.headers =
      (N8nVoiceTradingTester.init u).headers) ∧
    (((N8nVoiceTradingTester.init u).test_balance exchange resp).finalState.headers =
      (N8nVoiceTradingTester.init u).headers) ∧
    (((N8nVoiceTradingTester.init u).test_orders exchange resp).finalState.headers =
      (N8nVoiceTradingTester.init u).headers) ∧
    (((N8nVoiceTradingTester.init u).test_no_audio_input resp).finalState.headers =
      (N8nVoiceTradingTester.init u).headers) ∧
    (((N8nVoiceTradingTester.init u).test_empty_audio_url resp).finalState.headers =
      (N8nVoiceTradingTester.init u).headers) ∧
    (((N8nVoiceTradingTester.init u).test_malformed_request resp).finalState.headers =
      (N8nVoiceTradingTester.init u).headers) ∧
    (((N8nVoiceTradingTester.init u).test_passing_error_response resp).finalState.headers =
      (N8nVoiceTradingTester.init u).headers) := by
  have hhd : (N8nVoiceTradingTester.init u).headers =
      [("Content-Type", "application/json")] := rfl
  refine ⟨rfl, ?_, ?_, ?_, ?_, ?_, ?_, ?_, ?_, ?_, ?_, ?_, ?_, ?_, ?_⟩ <;>
    simp [test_voice_command_requests, test_balance_requests, test_orders_requests,
          test_no_audio_input_requests, test_empty_audio_url_requests,
          test_malformed_request_requests, test_passing_error_response_requests,
          N8nVoiceTradingTester.test_voice_command, N8nVoiceTradingTester.test_balance,
          N8nVoiceTradingTester.test_orders, N8nVoiceTradingTester.test_no_audio_input,
          N8nVoiceTradingTester.test_empty_audio_url,
          N8nVoiceTradingTester.test_malformed_request,
          N8nVoiceTradingTester.test_passing_error_response,
          postJson, getWithParams, send_requests, send_finalState, hhd, hlookup]

end VoiceTrade
